import Mathlib

/-!
Shallow embedding of the freecanard concurrency/queuing layer
(src/freecanard/freecanard.c, src/freecanard/freecanard.h).

freecanard wraps the external libcanard protocol engine for FreeRTOS:
a mutex guards every engine/allocator access, a bounded FreeRTOS queue
hands frames from task/ISR ingestion entry points to a dedicated
processing task, and a drain loop serializes outbound frames onto the
platform link.

Machine integers are modelled as `Nat` with explicit `% 2 ^ w` where
wrap-around matters (the tick-to-microsecond conversion); C `void`
returns are modelled as `Unit`; the FreeRTOS queue is a `List` of
queue items with an explicit capacity bound.
-/

set_option autoImplicit false

namespace Freecanard

/-! ## Clock: pdTICKS_TO_US and freecanard_get_us

The C macro is
`((TickType_t)(((TickType_t)1e+6 * (TickType_t)(xTimeInTicks)) / (TickType_t)(configTICK_RATE_HZ)))`:
every operand is cast to the unsigned `TickType_t` of width `w` bits, so the
product `1000000 * ticks` wraps modulo `2 ^ w` before the division.
`w` (the `TickType_t` width) and `hz` (`configTICK_RATE_HZ`) are FreeRTOS
configuration parameters, taken here as arguments. -/

/-- Macro `pdTICKS_TO_US` from freecanard.c lines 5-8: converts ticks to
microseconds entirely in `TickType_t`-width unsigned arithmetic, so the
intermediate product `1000000 * ticks` is reduced modulo `2 ^ w`. -/
def pdTICKS_TO_US (w hz ticks : Nat) : Nat :=
  ((1000000 % 2 ^ w) * (ticks % 2 ^ w) % 2 ^ w) / (hz % 2 ^ w) % 2 ^ w

/-- Function `freecanard_get_us` from freecanard.c lines 259-262: reads the current
tick count and converts it with `pdTICKS_TO_US`.  The current tick count
`xTaskGetTickCount()` is passed as the argument `tick`. -/
def freecanard_get_us (w hz tick : Nat) : Nat :=
  pdTICKS_TO_US w hz tick

/-! ## Frames and queue items -/

/-- Struct `freecanard_frame_t` from freecanard.h: a CAN(-FD) frame with a 32-bit
identifier, a byte buffer of capacity `CANARD_MTU_CAN_FD`, and its actual
length. -/
structure freecanard_frame_t where
  id : Nat
  data : List Nat
  data_len : Nat
  deriving DecidableEq, Repr

/-- Struct `CanardFrame` from the external libcanard interface: the link-layer
frame view handed to `canardRxAccept` and produced by the TX queue. -/
structure CanardFrame where
  extended_can_id : Nat
  payload_size : Nat
  payload : List Nat
  timestamp_usec : Nat
  deriving DecidableEq, Repr

/-- Struct `freecanard_frame_queue_item_t` from freecanard.c lines 24-28: the item
type of the processing-task queue.  It holds a frame and the redundant
transport index — and no timestamp field. -/
structure freecanard_frame_queue_item_t where
  frame_ : freecanard_frame_t
  redundant_transport_index_ : Nat
  deriving DecidableEq, Repr

/-- Function `freecanard_to_canard_frame` from freecanard.c lines 287-292: copies id,
length and payload; the `timestamp_usec` field of the stack-local
`CanardFrame` is not written here (the caller assigns it afterwards), so it
is modelled as 0 here and overwritten by the processing task. -/
def freecanard_to_canard_frame (f : freecanard_frame_t) : CanardFrame :=
  { extended_can_id := f.id
    payload_size := f.data_len
    payload := f.data
    timestamp_usec := 0 }

/-- Function `canard_to_freecanard_frame` from freecanard.c lines 294-299: copies id,
length, and `payload_size` bytes of payload. -/
def canard_to_freecanard_frame (f : CanardFrame) : freecanard_frame_t :=
  { id := f.extended_can_id
    data := f.payload
    data_len := f.payload_size }

/-! ## Ingestion entry points

The processing-task queue is created in `freecanard_init` with
`xQueueCreate(processing_task_size, sizeof(freecanard_frame_queue_item_t))`;
it is modelled as a list of queue items together with a capacity. -/

/-- Result of the ISR ingestion path: the queue after the call, whether the
item was enqueued, and whether `portYIELD_FROM_ISR` was invoked with a set
`HigherPriorityTaskWoken` flag (i.e. whether control yields to the scheduler
on return from the ISR). -/
structure ISRIngestResult where
  queue : List freecanard_frame_queue_item_t
  enqueued : Bool
  yields : Bool
  deriving DecidableEq, Repr

/-- Function `freecanard_process_received_frame_from_ISR` from freecanard.c lines
178-195: builds a `freecanard_frame_queue_item_t` from the frame and the
supplied transport index and enqueues it with the non-blocking
`xQueueSendToBackFromISR`; on a full queue the item is not enqueued.
`xQueueSendToBackFromISR` sets `HigherPriorityTaskWoken` when the enqueue
made a higher-priority task runnable (`woken` models that condition), and
the code then calls `portYIELD_FROM_ISR` with that flag.  The C function
returns `void`; the enqueue result is discarded. -/
def freecanard_process_received_frame_from_ISR
    (queue : List freecanard_frame_queue_item_t) (capacity : Nat)
    (frame : freecanard_frame_t) (redundant_transport_index : Nat)
    (woken : Bool) : ISRIngestResult :=
  let queue_item : freecanard_frame_queue_item_t :=
    { frame_ := frame
      redundant_transport_index_ := redundant_transport_index }
  if queue.length < capacity then
    { queue := queue ++ [queue_item], enqueued := true, yields := woken }
  else
    { queue := queue, enqueued := false, yields := false }

/-- The caller-visible return value of
`freecanard_process_received_frame_from_ISR`: the C function returns
`void`, so the caller receives no indication of whether the frame was
enqueued or dropped. -/
def freecanard_process_received_frame_from_ISR_ret : Unit := ()

/-- Function `freecanard_process_received_frame` from freecanard.c lines 197-205
(task-context ingestion).  The code reads
`xQueueSendToBack(cookie->processing_task_queue_, frame, timeout)`: it
passes `frame` itself, not a `freecanard_frame_queue_item_t`, although the
queue was created with item size `sizeof(freecanard_frame_queue_item_t)`.
`xQueueSendToBack` therefore copies `sizeof(freecanard_frame_queue_item_t)`
bytes starting at `frame`, so the transport-index slot of the enqueued item
is filled from memory past the end of the caller frame object, modelled by
the unconstrained `overread_byte`; the `redundant_transport_index`
parameter is never used.  The function blocks up to `timeout` ticks when
the queue is full (modelled statically: the item is enqueued iff the queue
has space) and returns `void`, discarding the enqueue result. -/
def freecanard_process_received_frame
    (queue : List freecanard_frame_queue_item_t) (capacity : Nat)
    (frame : freecanard_frame_t) (redundant_transport_index : Nat)
    (timeout : Nat) (overread_byte : Nat) :
    List freecanard_frame_queue_item_t × Unit :=
  let _ := redundant_transport_index
  let _ := timeout
  let queue_item : freecanard_frame_queue_item_t :=
    { frame_ := frame
      redundant_transport_index_ := overread_byte }
  if queue.length < capacity then (queue ++ [queue_item], ())
  else (queue, ())

/-! ## Processing task: frame reconstruction and accept arguments -/

/-- The `CanardFrame` the processing task hands to `canardRxAccept`
(freecanard.c lines 226-237): reconstructed from the dequeued item with
`freecanard_to_canard_frame`, then stamped with
`canard_frame.timestamp_usec = freecanard_get_us()` — the clock read at
dequeue time (`dequeue_tick`).  The queue item carries no arrival
timestamp. -/
def freecanard_accept_frame (w hz : Nat)
    (queue_item : freecanard_frame_queue_item_t) (dequeue_tick : Nat) :
    CanardFrame :=
  { freecanard_to_canard_frame queue_item.frame_ with
    timestamp_usec := freecanard_get_us w hz dequeue_tick }

/-- The redundant transport index the processing task hands to
`canardRxAccept` (freecanard.c line 236): the
`redundant_transport_index_` field of the dequeued queue item. -/
def freecanard_accept_transport_index
    (queue_item : freecanard_frame_queue_item_t) : Nat :=
  queue_item.redundant_transport_index_

/-! ## Transmit path

Constants and the outbound-transfer record, from the external libcanard
interface (canard.h), as the spec describes them at the interface
boundary. -/

/-- MTU of CAN-FD, from canard.h (`CANARD_MTU_CAN_FD`). -/
def CANARD_MTU_CAN_FD : Nat := 64

/-- MTU of classic CAN 2.0, from canard.h (`CANARD_MTU_CAN_CLASSIC`). -/
def CANARD_MTU_CAN_CLASSIC : Nat := 8

/-- Sentinel for an unset node id, from canard.h (`CANARD_NODE_ID_UNSET`). -/
def CANARD_NODE_ID_UNSET : Nat := 255

/-- Transfer kinds from canard.h (`CanardTransferKind`). -/
inductive CanardTransferKind where
  | Message
  | Request
  | Response
  deriving DecidableEq, Repr

/-- Struct `CanardTransfer` from the external libcanard interface: the
outbound (or reassembled inbound) transfer record filled in by the three
freecanard transmit operations. -/
structure CanardTransfer where
  timestamp_usec : Nat
  priority : Nat
  transfer_kind : CanardTransferKind
  port_id : Nat
  remote_node_id : Nat
  transfer_id : Nat
  payload : List Nat
  payload_size : Nat
  deriving DecidableEq, Repr

/-! ## The engine TX queue and the drain loop

The engine (libcanard) is an external collaborator; per the spec its send
queue is priority-ordered with a monotonic per-transfer sequence as
tie-break, and it exposes push/peek/pop.  The drain-loop claims concern a
single transfer (one priority class), for which the queue is FIFO: it is
modelled as a `List CanardFrame`, `canardTxPeek` returning the head and
`canardTxPop` removing it.  `canardTxPush` splits the transfer into frames
(allocating each) and appends them in order. -/

/-- Model of `canardTxPush` at the interface boundary: the frames of the
pushed transfer enter the send queue in order after the frames already
queued (same priority class). -/
def canardTxPush (tx_queue : List CanardFrame)
    (transfer_frames : List CanardFrame) : List CanardFrame :=
  tx_queue ++ transfer_frames

/-- Result of one run of the drain loop in `freecanard_transmit_transfer`:
the send queue left behind, the frames accepted by the platform-send in
order, the frames freed in order, and the pop / free call counts. -/
structure DrainResult where
  tx_queue : List CanardFrame
  sent : List CanardFrame
  freed : List CanardFrame
  pop_count : Nat
  free_count : Nat
  deriving DecidableEq, Repr

/-- Drain loop of `freecanard_transmit_transfer` (freecanard.c lines
314-326): peek the head of the TX queue; if the queue is empty stop;
convert the head with `canard_to_freecanard_frame` and hand it to the
platform-send with the CAN-FD flag; on a nonzero result break immediately
(the head is neither popped nor freed); on success pop the head and free
its memory, then continue with the next frame. -/
def freecanard_drain (platform_send : freecanard_frame_t → Bool → Int)
    (can_fd : Bool) : List CanardFrame → DrainResult
  | [] => { tx_queue := [], sent := [], freed := [], pop_count := 0, free_count := 0 }
  | txf :: rest =>
    if platform_send (canard_to_freecanard_frame txf) can_fd ≠ 0 then
      { tx_queue := txf :: rest, sent := [], freed := [], pop_count := 0, free_count := 0 }
    else
      let r := freecanard_drain platform_send can_fd rest
      { tx_queue := r.tx_queue
        sent := txf :: r.sent
        freed := txf :: r.freed
        pop_count := r.pop_count + 1
        free_count := r.free_count + 1 }

/-- Events of the drain loop, in program order: a platform-send attempt
with its result, a `canardTxPop`, a `memory_free` of the popped frame. -/
inductive TxEvent where
  | send_attempt (f : CanardFrame) (res : Int)
  | pop (f : CanardFrame)
  | free (f : CanardFrame)
  deriving DecidableEq, Repr

/-- Event trace of the drain loop of `freecanard_transmit_transfer`: a
failed send ends the trace with that attempt; a successful send of the
head frame is followed by the pop and the free of that same frame before
the loop peeks the next frame. -/
def freecanard_drain_trace (platform_send : freecanard_frame_t → Bool → Int)
    (can_fd : Bool) : List CanardFrame → List TxEvent
  | [] => []
  | txf :: rest =>
    let res := platform_send (canard_to_freecanard_frame txf) can_fd
    if res ≠ 0 then
      [TxEvent.send_attempt txf res]
    else
      TxEvent.send_attempt txf 0 :: TxEvent.pop txf :: TxEvent.free txf ::
        freecanard_drain_trace platform_send can_fd rest

/-- Boolean check that a drain trace pairs every successful send attempt
with exactly one pop and exactly one free of that same frame, immediately
and before any further send attempt, and that a failed attempt is the last
event of the trace. -/
def sendPopFreePaired : List TxEvent → Bool
  | [] => true
  | [TxEvent.send_attempt _ res] => decide (res ≠ 0)
  | TxEvent.send_attempt f res :: TxEvent.pop g :: TxEvent.free h :: rest =>
      decide (res = 0) && decide (f = g) && decide (f = h) && sendPopFreePaired rest
  | _ => false

/-- Function `freecanard_transmit_transfer` (freecanard.c lines 309-327):
push the transfer into the engine TX queue (each produced frame is a fresh
engine allocation), then run the drain loop with the CAN-FD flag computed
from `ins->mtu_bytes == CANARD_MTU_CAN_FD`.  `transfer_frames` is the
frame sequence the engine produces for the pushed transfer. -/
def freecanard_transmit_transfer
    (platform_send : freecanard_frame_t → Bool → Int) (mtu_bytes : Nat)
    (tx_queue : List CanardFrame) (transfer_frames : List CanardFrame) :
    DrainResult :=
  freecanard_drain platform_send (decide (mtu_bytes = CANARD_MTU_CAN_FD))
    (canardTxPush tx_queue transfer_frames)

/-! ## Transmit operations (message / request / response)

Each of the three operations builds a `CanardTransfer` under the lock,
reads the clock for `timestamp_usec`, uses the current value of the
caller-supplied 8-bit transfer-id counter and post-increments it
(`transfer.transfer_id = (*transfer_id)++`, wrapping modulo 256), then
calls `freecanard_transmit_transfer`.  Each returns the built transfer,
the new counter value, and the drain result. -/

/-- Function `freecanard_transmit_subject` from freecanard.c lines 101-124. -/
def freecanard_transmit_subject (w hz tick : Nat)
    (platform_send : freecanard_frame_t → Bool → Int) (mtu_bytes : Nat)
    (tx_queue : List CanardFrame)
    (framesOf : CanardTransfer → List CanardFrame)
    (message_id : Nat) (priority : Nat) (payload : List Nat)
    (payload_len : Nat) (transfer_id : Nat) :
    CanardTransfer × Nat × DrainResult :=
  let transfer : CanardTransfer :=
    { timestamp_usec := freecanard_get_us w hz tick
      priority := priority
      transfer_kind := CanardTransferKind.Message
      port_id := message_id
      remote_node_id := CANARD_NODE_ID_UNSET
      transfer_id := transfer_id % 256
      payload := payload
      payload_size := payload_len }
  (transfer, (transfer_id + 1) % 256,
    freecanard_transmit_transfer platform_send mtu_bytes tx_queue
      (framesOf transfer))

/-- Function `freecanard_transmit_request` from freecanard.c lines 126-150. -/
def freecanard_transmit_request (w hz tick : Nat)
    (platform_send : freecanard_frame_t → Bool → Int) (mtu_bytes : Nat)
    (tx_queue : List CanardFrame)
    (framesOf : CanardTransfer → List CanardFrame)
    (destination_node_id : Nat) (request_id : Nat) (priority : Nat)
    (payload : List Nat) (payload_len : Nat) (transfer_id : Nat) :
    CanardTransfer × Nat × DrainResult :=
  let transfer : CanardTransfer :=
    { timestamp_usec := freecanard_get_us w hz tick
      priority := priority
      transfer_kind := CanardTransferKind.Request
      port_id := request_id
      remote_node_id := destination_node_id
      transfer_id := transfer_id % 256
      payload := payload
      payload_size := payload_len }
  (transfer, (transfer_id + 1) % 256,
    freecanard_transmit_transfer platform_send mtu_bytes tx_queue
      (framesOf transfer))

/-- Function `freecanard_transmit_response` from freecanard.c lines 152-176. -/
def freecanard_transmit_response (w hz tick : Nat)
    (platform_send : freecanard_frame_t → Bool → Int) (mtu_bytes : Nat)
    (tx_queue : List CanardFrame)
    (framesOf : CanardTransfer → List CanardFrame)
    (destination_node_id : Nat) (response_id : Nat) (priority : Nat)
    (payload : List Nat) (payload_len : Nat) (transfer_id : Nat) :
    CanardTransfer × Nat × DrainResult :=
  let transfer : CanardTransfer :=
    { timestamp_usec := freecanard_get_us w hz tick
      priority := priority
      transfer_kind := CanardTransferKind.Response
      port_id := response_id
      remote_node_id := destination_node_id
      transfer_id := transfer_id % 256
      payload := payload
      payload_size := payload_len }
  (transfer, (transfer_id + 1) % 256,
    freecanard_transmit_transfer platform_send mtu_bytes tx_queue
      (framesOf transfer))

/-! ## Lock discipline (mutual exclusion)

Each public operation is modelled by its trace of lock events and
engine/allocator accesses, in program order, read off the bodies of the
C functions: `freecanard_take_mutex` / `freecanard_give_mutex` wrap
`xSemaphoreTake` / `xSemaphoreGive`, and every `canard*`, `o1heap*` or
`memory_free` call is an engine/allocator access. -/

/-- Lock-relevant events: acquisition, release, and an access to the
shared engine instance or allocator. -/
inductive LockEvent where
  | take
  | give
  | access
  deriving DecidableEq, Repr

/-- Checker for lock discipline with a non-reentrant mutex, starting at
lock depth `d`: a take only when not held, a give or an engine/allocator
access only while held, and the lock released when the trace ends. -/
def lockOk (d : Nat) : List LockEvent → Bool
  | [] => decide (d = 0)
  | LockEvent.take :: rest => if d = 0 then lockOk 1 rest else false
  | LockEvent.give :: rest => if d = 0 then false else lockOk (d - 1) rest
  | LockEvent.access :: rest => if d = 0 then false else lockOk d rest

/-- Lock/access trace of `freecanard_subscribe` (freecanard.c lines
66-86): take the mutex, call `canardRxSubscribe`, give the mutex, return
the result. -/
def freecanard_subscribe_trace : List LockEvent :=
  [LockEvent.take, LockEvent.access, LockEvent.give]

/-- Lock/access trace of `freecanard_unsubscribe` (freecanard.c lines
88-99): take the mutex, call `canardRxUnsubscribe`, give the mutex. -/
def freecanard_unsubscribe_trace : List LockEvent :=
  [LockEvent.take, LockEvent.access, LockEvent.give]

/-- Engine/allocator accesses performed by the drain loop, mirroring
`freecanard_drain`: each iteration peeks (`canardTxPeek`, one access); on
success it also pops (`canardTxPop`) and frees (`ins->memory_free`); on an
empty queue the final peek that returns NULL is one access. -/
def freecanard_drain_lock_trace
    (platform_send : freecanard_frame_t → Bool → Int) (can_fd : Bool) :
    List CanardFrame → List LockEvent
  | [] => [LockEvent.access]
  | txf :: rest =>
    if platform_send (canard_to_freecanard_frame txf) can_fd ≠ 0 then
      [LockEvent.access]
    else
      LockEvent.access :: LockEvent.access :: LockEvent.access ::
        freecanard_drain_lock_trace platform_send can_fd rest

/-- Engine/allocator accesses of `freecanard_transmit_transfer`:
`canardTxPush` (one access) followed by the drain-loop accesses. -/
def freecanard_transmit_transfer_lock_trace
    (platform_send : freecanard_frame_t → Bool → Int) (mtu_bytes : Nat)
    (tx_queue transfer_frames : List CanardFrame) : List LockEvent :=
  LockEvent.access ::
    freecanard_drain_lock_trace platform_send
      (decide (mtu_bytes = CANARD_MTU_CAN_FD))
      (canardTxPush tx_queue transfer_frames)

/-- Lock/access trace of `freecanard_transmit_subject` (freecanard.c lines
101-124): take the mutex, build the transfer, run
`freecanard_transmit_transfer`, give the mutex. -/
def freecanard_transmit_subject_trace
    (platform_send : freecanard_frame_t → Bool → Int) (mtu_bytes : Nat)
    (tx_queue transfer_frames : List CanardFrame) : List LockEvent :=
  LockEvent.take ::
    freecanard_transmit_transfer_lock_trace platform_send mtu_bytes
      tx_queue transfer_frames ++ [LockEvent.give]

/-- Lock/access trace of `freecanard_transmit_request` (freecanard.c lines
126-150): same shape as the subject transmit. -/
def freecanard_transmit_request_trace
    (platform_send : freecanard_frame_t → Bool → Int) (mtu_bytes : Nat)
    (tx_queue transfer_frames : List CanardFrame) : List LockEvent :=
  LockEvent.take ::
    freecanard_transmit_transfer_lock_trace platform_send mtu_bytes
      tx_queue transfer_frames ++ [LockEvent.give]

/-- Lock/access trace of `freecanard_transmit_response` (freecanard.c
lines 152-176): same shape as the subject transmit. -/
def freecanard_transmit_response_trace
    (platform_send : freecanard_frame_t → Bool → Int) (mtu_bytes : Nat)
    (tx_queue transfer_frames : List CanardFrame) : List LockEvent :=
  LockEvent.take ::
    freecanard_transmit_transfer_lock_trace platform_send mtu_bytes
      tx_queue transfer_frames ++ [LockEvent.give]

/-! ## Processing task: per-frame step and loop

`freecanard_processing_task` (freecanard.c lines 207-255) dequeues one
item per iteration, reconstructs and stamps the frame, takes the mutex,
calls `canardRxAccept`, and branches on its result `res`:
`res == 1` (a complete transfer): invoke the transfer-received callback
if one is registered, then free the transfer payload, then give the
mutex; any other `res`: give the mutex and continue with the next frame.
Nothing is returned to anyone — the task loops forever. -/

/-- Events of one processing-task iteration after the dequeue. -/
inductive ProcEvent where
  | take
  | accept
  | callback
  | free_payload
  | give
  deriving DecidableEq, Repr

/-- Event trace of one iteration of `freecanard_processing_task` for a
dequeued frame, given the `canardRxAccept` result `res` and whether a
transfer-received callback is registered (`has_callback`,
`cookie->on_transfer_received_ != NULL`). -/
def freecanard_processing_step (res : Int) (has_callback : Bool) :
    List ProcEvent :=
  ProcEvent.take :: ProcEvent.accept ::
    (if res = 1 then
      (if has_callback then [ProcEvent.callback] else []) ++
        [ProcEvent.free_payload, ProcEvent.give]
    else
      [ProcEvent.give])

/-- Event trace of the processing-task loop over a sequence of dequeued
frames whose accept results are `results`: one step per frame, the loop
continuing after every outcome. -/
def freecanard_processing_loop (results : List Int) (has_callback : Bool) :
    List ProcEvent :=
  match results with
  | [] => []
  | r :: rs =>
    freecanard_processing_step r has_callback ++
      freecanard_processing_loop rs has_callback

/-- Projection of a processing-task event onto lock events: the accept
call and the payload free are engine/allocator accesses; the application
callback is not. -/
def ProcEvent.toLockEvents : ProcEvent → List LockEvent
  | ProcEvent.take => [LockEvent.take]
  | ProcEvent.give => [LockEvent.give]
  | ProcEvent.accept => [LockEvent.access]
  | ProcEvent.free_payload => [LockEvent.access]
  | ProcEvent.callback => []

/-- Lock/access trace of one processing-task iteration. -/
def freecanard_processing_step_lock_trace (res : Int)
    (has_callback : Bool) : List LockEvent :=
  ((freecanard_processing_step res has_callback).map
    ProcEvent.toLockEvents).flatten

/-! ## Helper lemmas about the drain loop -/

/-- Drain with a head frame the link rejects: nothing is sent, popped or
freed, and the whole queue is left behind. -/
theorem drain_fail_head (send : freecanard_frame_t → Bool → Int)
    (can_fd : Bool) (txf : CanardFrame) (rest : List CanardFrame)
    (h : send (canard_to_freecanard_frame txf) can_fd ≠ 0) :
    freecanard_drain send can_fd (txf :: rest) =
      { tx_queue := txf :: rest, sent := [], freed := [],
        pop_count := 0, free_count := 0 } := by
  simp [freecanard_drain, h]

/-- Drain over a fully accepted block of frames `a` in front of `q`:
the frames of `a` are sent, popped and freed in order, and the drain
continues into `q`. -/
theorem drain_append_success (send : freecanard_frame_t → Bool → Int)
    (can_fd : Bool) (a q : List CanardFrame)
    (ha : ∀ f ∈ a, send (canard_to_freecanard_frame f) can_fd = 0) :
    freecanard_drain send can_fd (a ++ q) =
      { tx_queue := (freecanard_drain send can_fd q).tx_queue
        sent := a ++ (freecanard_drain send can_fd q).sent
        freed := a ++ (freecanard_drain send can_fd q).freed
        pop_count := a.length + (freecanard_drain send can_fd q).pop_count
        free_count := a.length + (freecanard_drain send can_fd q).free_count } := by
  induction a with
  | nil => simp
  | cons f fs ih =>
    have hf : send (canard_to_freecanard_frame f) can_fd = 0 := ha f (by simp)
    have hfs : ∀ g ∈ fs, send (canard_to_freecanard_frame g) can_fd = 0 :=
      fun g hg => ha g (by simp [hg])
    have hni : ¬ send (canard_to_freecanard_frame f) can_fd ≠ 0 := by
      simp [hf]
    have step : freecanard_drain send can_fd (f :: (fs ++ q)) =
        { tx_queue := (freecanard_drain send can_fd (fs ++ q)).tx_queue
          sent := f :: (freecanard_drain send can_fd (fs ++ q)).sent
          freed := f :: (freecanard_drain send can_fd (fs ++ q)).freed
          pop_count := (freecanard_drain send can_fd (fs ++ q)).pop_count + 1
          free_count := (freecanard_drain send can_fd (fs ++ q)).free_count + 1 } := by
      simp [freecanard_drain, hni]
    rw [List.cons_append, step, ih hfs]
    simp [DrainResult.mk.injEq]
    omega

/-- Drain over an empty queue does nothing. -/
theorem drain_nil (send : freecanard_frame_t → Bool → Int) (can_fd : Bool) :
    freecanard_drain send can_fd [] =
      { tx_queue := [], sent := [], freed := [],
        pop_count := 0, free_count := 0 } := rfl

/-- Trace of a drain over a fully accepted block `a` in front of `q`:
each frame of `a` contributes a successful send attempt immediately
followed by its pop and its free. -/
theorem drain_trace_append_success (send : freecanard_frame_t → Bool → Int)
    (can_fd : Bool) (a q : List CanardFrame)
    (ha : ∀ f ∈ a, send (canard_to_freecanard_frame f) can_fd = 0) :
    freecanard_drain_trace send can_fd (a ++ q) =
      (a.map fun f =>
        [TxEvent.send_attempt f 0, TxEvent.pop f, TxEvent.free f]).flatten ++
        freecanard_drain_trace send can_fd q := by
  induction a with
  | nil => simp
  | cons f fs ih =>
    have hf : send (canard_to_freecanard_frame f) can_fd = 0 := ha f (by simp)
    have hfs : ∀ g ∈ fs, send (canard_to_freecanard_frame g) can_fd = 0 :=
      fun g hg => ha g (by simp [hg])
    simp [freecanard_drain_trace, hf, ih hfs]

/-- Every drain trace pairs each successful send attempt with exactly one
pop and one free of the same frame before the next attempt, and a failed
attempt ends the trace. -/
theorem drain_trace_paired (send : freecanard_frame_t → Bool → Int)
    (can_fd : Bool) (q : List CanardFrame) :
    sendPopFreePaired (freecanard_drain_trace send can_fd q) = true := by
  induction q with
  | nil => rfl
  | cons f fs ih =>
    by_cases h : send (canard_to_freecanard_frame f) can_fd = 0
    · simp [freecanard_drain_trace, h, sendPopFreePaired, ih]
    · simp [freecanard_drain_trace, h, sendPopFreePaired]

/-- Inside the critical section (depth 1), the drain accesses followed by
the final give keep the lock discipline intact. -/
theorem lockOk_drain_lock_trace (send : freecanard_frame_t → Bool → Int)
    (can_fd : Bool) (q : List CanardFrame) :
    lockOk 1 (freecanard_drain_lock_trace send can_fd q ++ [LockEvent.give]) = true := by
  induction q with
  | nil => rfl
  | cons f fs ih =>
    by_cases h : send (canard_to_freecanard_frame f) can_fd = 0
    · simp [freecanard_drain_lock_trace, h, lockOk, ih]
    · simp [freecanard_drain_lock_trace, h, lockOk]

/-! ## Claim theorems -/

/-- C1 (counterexample): a frame that arrives at tick 5 but is dequeued
by the Processing Task at tick 100 (with a 32-bit `TickType_t` and
`configTICK_RATE_HZ = 1000`) is handed to `canardRxAccept` with timestamp
100000 µs — the dequeue-time clock reading — which differs from its
arrival timestamp 5000 µs.  The queue item type has no timestamp field,
so the arrival time cannot reach the accept call. -/
theorem C1_counterexample_dequeue_time_stamped :
    (freecanard_accept_frame 32 1000
        { frame_ := { id := 7, data := [1, 2, 3], data_len := 3 },
          redundant_transport_index_ := 0 } 100).timestamp_usec = 100000 ∧
    freecanard_get_us 32 1000 5 = 5000 ∧
    (freecanard_accept_frame 32 1000
        { frame_ := { id := 7, data := [1, 2, 3], data_len := 3 },
          redundant_transport_index_ := 0 } 100).timestamp_usec ≠
      freecanard_get_us 32 1000 5 := by
  refine ⟨by decide, by decide, by decide⟩

/-- C1 (amended): the frame the Processing Task passes to the accept step
is the reconstructed link-layer view of the dequeued frame stamped with
the clock reading taken at dequeue time; queued frames carry no receive
timestamp, so the timestamp passed to accept is the dequeue-time clock
value for every dequeued item, whatever its arrival time was. -/
theorem C1_accept_timestamp_is_dequeue_clock (w hz : Nat)
    (item : freecanard_frame_queue_item_t) (dequeue_tick : Nat) :
    freecanard_accept_frame w hz item dequeue_tick =
      { extended_can_id := item.frame_.id
        payload_size := item.frame_.data_len
        payload := item.frame_.data
        timestamp_usec := freecanard_get_us w hz dequeue_tick } := rfl

/-- C2 (code bug, failing input): task-context ingestion of a frame with
`redundant_transport_index = 3`, where the byte adjacent to the caller
frame object holds 7, enqueues a queue item whose transport-index slot is
7 (the out-of-bounds byte), so the accept step receives 7, not the
supplied 3.  The interrupt-context entry point, by contrast, enqueues the
supplied index 3. -/
theorem C2_task_ingestion_drops_transport_index :
    (freecanard_process_received_frame [] 4
        { id := 7, data := [1, 2, 3], data_len := 3 } 3 10 7).fst =
      [{ frame_ := { id := 7, data := [1, 2, 3], data_len := 3 },
         redundant_transport_index_ := 7 }] ∧
    freecanard_accept_transport_index
      { frame_ := { id := 7, data := [1, 2, 3], data_len := 3 },
        redundant_transport_index_ := 7 } ≠ 3 ∧
    (freecanard_process_received_frame_from_ISR [] 4
        { id := 7, data := [1, 2, 3], data_len := 3 } 3 false).queue =
      [{ frame_ := { id := 7, data := [1, 2, 3], data_len := 3 },
         redundant_transport_index_ := 3 }] := by
  refine ⟨by decide, by decide, by decide⟩

/-- C9: each of the three transmit operations uses the current value of
the caller-supplied 8-bit transfer-id counter for the outgoing transfer
and increments the counter exactly once, by one modulo 256. -/
theorem C9_transfer_id_incremented_once_per_call (w hz tick : Nat)
    (send : freecanard_frame_t → Bool → Int) (mtu : Nat)
    (txq : List CanardFrame) (framesOf : CanardTransfer → List CanardFrame)
    (message_id request_id response_id destination_node_id priority : Nat)
    (payload : List Nat) (payload_len transfer_id : Nat) :
    (freecanard_transmit_subject w hz tick send mtu txq framesOf
        message_id priority payload payload_len transfer_id).2.1 =
      (transfer_id + 1) % 256 ∧
    (freecanard_transmit_subject w hz tick send mtu txq framesOf
        message_id priority payload payload_len transfer_id).1.transfer_id =
      transfer_id % 256 ∧
    (freecanard_transmit_request w hz tick send mtu txq framesOf
        destination_node_id request_id priority payload payload_len
        transfer_id).2.1 = (transfer_id + 1) % 256 ∧
    (freecanard_transmit_request w hz tick send mtu txq framesOf
        destination_node_id request_id priority payload payload_len
        transfer_id).1.transfer_id = transfer_id % 256 ∧
    (freecanard_transmit_response w hz tick send mtu txq framesOf
        destination_node_id response_id priority payload payload_len
        transfer_id).2.1 = (transfer_id + 1) % 256 ∧
    (freecanard_transmit_response w hz tick send mtu txq framesOf
        destination_node_id response_id priority payload payload_len
        transfer_id).1.transfer_id = transfer_id % 256 :=
  ⟨rfl, rfl, rfl, rfl, rfl, rfl⟩

/-- C10: the tick-to-microsecond conversion computes
`1000000 * tick / hz` in `TickType_t`-width unsigned arithmetic, so the
intermediate product wraps modulo `2 ^ w`: the returned timestamp equals
the true elapsed microseconds exactly while `1000000 * tick < 2 ^ w`, and
is strictly below the true value (aliases) from then on. -/
theorem C10_get_us_wraps_at_width (w hz tick : Nat) (hhz : 0 < hz)
    (hhzw : hz < 2 ^ w) (hmil : 1000000 < 2 ^ w) (htick : tick < 2 ^ w) :
    (1000000 * tick < 2 ^ w →
      freecanard_get_us w hz tick = 1000000 * tick / hz) ∧
    (2 ^ w ≤ 1000000 * tick →
      freecanard_get_us w hz tick < 1000000 * tick / hz) := by
  have hM : (0 : Nat) < 2 ^ w := Nat.pos_pow_of_pos w (by norm_num)
  have hga : freecanard_get_us w hz tick =
      (1000000 * tick % 2 ^ w) / hz % 2 ^ w := by
    unfold freecanard_get_us pdTICKS_TO_US
    rw [Nat.mod_eq_of_lt hmil, Nat.mod_eq_of_lt htick, Nat.mod_eq_of_lt hhzw]
  have hlt2 : (1000000 * tick % 2 ^ w) / hz < 2 ^ w :=
    lt_of_le_of_lt (Nat.div_le_self _ _) (Nat.mod_lt _ hM)
  have hga2 : freecanard_get_us w hz tick = (1000000 * tick % 2 ^ w) / hz := by
    rw [hga, Nat.mod_eq_of_lt hlt2]
  constructor
  · intro h
    rw [hga2, Nat.mod_eq_of_lt h]
  · intro h
    have h1 : 1 ≤ 1000000 * tick / 2 ^ w := (Nat.one_le_div_iff hM).mpr h
    have h2 : 2 ^ w ≤ 2 ^ w * (1000000 * tick / 2 ^ w) := by
      calc 2 ^ w = 2 ^ w * 1 := (mul_one _).symm
        _ ≤ 2 ^ w * (1000000 * tick / 2 ^ w) := Nat.mul_le_mul_left _ h1
    have hdm := Nat.div_add_mod (1000000 * tick) (2 ^ w)
    have h3 : 1000000 * tick % 2 ^ w + hz ≤ 1000000 * tick := by omega
    have hle : (1000000 * tick % 2 ^ w) / hz ≤ (1000000 * tick - hz) / hz :=
      Nat.div_le_div_right (by omega)
    have heq : 1000000 * tick / hz = (1000000 * tick - hz) / hz + 1 := by
      conv_lhs => rw [show 1000000 * tick = 1000000 * tick - hz + hz by omega]
      exact Nat.add_div_right _ hhz
    rw [hga2]
    omega

/-- C10 (witness): with a 32-bit `TickType_t` and a 1000 Hz tick rate,
tick count 4 converts exactly (4000 µs), while at tick count 5000 the
product 5·10⁹ has wrapped and the conversion returns less than the true
5·10⁶ µs. -/
theorem C10_get_us_wraps_at_width_witness :
    freecanard_get_us 32 1000 4 = 1000000 * 4 / 1000 ∧
    freecanard_get_us 32 1000 5000 < 1000000 * 5000 / 1000 :=
  ⟨(C10_get_us_wraps_at_width 32 1000 4 (by norm_num) (by norm_num)
      (by norm_num) (by norm_num)).1 (by norm_num),
   (C10_get_us_wraps_at_width 32 1000 5000 (by norm_num) (by norm_num)
      (by norm_num) (by norm_num)).2 (by norm_num)⟩

/-- C3 (counterexample): the task-context ingestion operation returns no
success/timeout result.  Its return type is `void` (`Unit`), so no reading
of the returned value can be `true` on a run that enqueued the frame
(empty queue, capacity 1) and `false` on a run that dropped it (full
queue): the claimed success-iff-enqueued result does not exist.  The two
runs shown really differ: the first enqueues, the second leaves the full
queue unchanged. -/
theorem C3_counterexample_no_result_returned :
    (freecanard_process_received_frame [] 1
        { id := 1, data := [], data_len := 0 } 0 10 0).fst.length = 1 ∧
    (freecanard_process_received_frame
        [{ frame_ := { id := 9, data := [], data_len := 0 },
           redundant_transport_index_ := 0 }] 1
        { id := 1, data := [], data_len := 0 } 0 10 0).fst =
      [{ frame_ := { id := 9, data := [], data_len := 0 },
         redundant_transport_index_ := 0 }] ∧
    ¬ ∃ f : Unit → Bool,
      f (freecanard_process_received_frame [] 1
          { id := 1, data := [], data_len := 0 } 0 10 0).snd = true ∧
      f (freecanard_process_received_frame
          [{ frame_ := { id := 9, data := [], data_len := 0 },
             redundant_transport_index_ := 0 }] 1
          { id := 1, data := [], data_len := 0 } 0 10 0).snd = false := by
  refine ⟨by decide, by decide, ?_⟩
  rintro ⟨f, h1, h2⟩
  exact absurd (h1.symm.trans h2) (by decide)

/-- C3 (amended): task-context ingestion blocks at most the caller-supplied
timeout when the queue is full and enqueues the frame iff the queue has
space, but returns nothing: the function returns `void`, discarding the
enqueue result of `xQueueSendToBack`, so every call returns the same value
whether the frame was enqueued or dropped. -/
theorem C3_enqueue_result_discarded
    (queue : List freecanard_frame_queue_item_t) (capacity : Nat)
    (frame : freecanard_frame_t) (rti timeout ob : Nat)
    (queue2 : List freecanard_frame_queue_item_t) (capacity2 : Nat)
    (frame2 : freecanard_frame_t) (rti2 timeout2 ob2 : Nat) :
    (freecanard_process_received_frame queue capacity frame rti timeout
        ob).fst =
      (if queue.length < capacity then
        queue ++ [{ frame_ := frame, redundant_transport_index_ := ob }]
      else queue) ∧
    (freecanard_process_received_frame queue capacity frame rti timeout
        ob).snd =
      (freecanard_process_received_frame queue2 capacity2 frame2 rti2
        timeout2 ob2).snd := by
  constructor
  · by_cases h : queue.length < capacity <;>
      simp [freecanard_process_received_frame, h]
  · rfl

/-- C4 (counterexample): interrupt-context ingestion returns no drop
indication.  The C function returns `void` (`Unit`), so no reading of the
caller-visible return can equal the negation of the enqueue outcome for
all queue states: ingestion into an empty capacity-1 queue enqueues, into
a full queue drops, yet the caller sees the identical (empty) return both
times. -/
theorem C4_counterexample_no_drop_indication :
    (freecanard_process_received_frame_from_ISR [] 1
        { id := 1, data := [], data_len := 0 } 0 false).enqueued = true ∧
    (freecanard_process_received_frame_from_ISR
        [{ frame_ := { id := 9, data := [], data_len := 0 },
           redundant_transport_index_ := 0 }] 1
        { id := 1, data := [], data_len := 0 } 0 false).enqueued = false ∧
    ¬ ∃ f : Unit → Bool,
      ∀ (q : List freecanard_frame_queue_item_t) (cap : Nat)
        (frame : freecanard_frame_t) (rti : Nat) (woken : Bool),
        f freecanard_process_received_frame_from_ISR_ret =
          !(freecanard_process_received_frame_from_ISR q cap frame rti
              woken).enqueued := by
  refine ⟨by decide, by decide, ?_⟩
  rintro ⟨f, hf⟩
  have h1 := hf [] 1 { id := 1, data := [], data_len := 0 } 0 false
  have h2 := hf [{ frame_ := { id := 9, data := [], data_len := 0 },
                   redundant_transport_index_ := 0 }] 1
      { id := 1, data := [], data_len := 0 } 0 false
  have e1 : (freecanard_process_received_frame_from_ISR [] 1
      { id := 1, data := [], data_len := 0 } 0 false).enqueued = true := by
    decide
  have e2 : (freecanard_process_received_frame_from_ISR
      [{ frame_ := { id := 9, data := [], data_len := 0 },
         redundant_transport_index_ := 0 }] 1
      { id := 1, data := [], data_len := 0 } 0 false).enqueued = false := by
    decide
  rw [e1] at h1
  rw [e2] at h2
  simp at h1 h2
  exact absurd (h1.symm.trans h2) (by decide)

/-- C4 (amended): interrupt-context ingestion makes a single non-blocking
enqueue attempt; with space the item (frame plus the supplied transport
index) is appended and control yields to the scheduler exactly when the
enqueue woke a higher-priority task; on a full queue the frame is silently
dropped — the queue is unchanged, nothing is enqueued, no yield is
requested, and (per the counterexample) no drop indication reaches the
caller. -/
theorem C4_full_queue_silent_drop
    (queue : List freecanard_frame_queue_item_t) (capacity : Nat)
    (frame : freecanard_frame_t) (rti : Nat) (woken : Bool) :
    (queue.length < capacity →
      (freecanard_process_received_frame_from_ISR queue capacity frame rti
          woken).queue =
        queue ++ [{ frame_ := frame, redundant_transport_index_ := rti }] ∧
      (freecanard_process_received_frame_from_ISR queue capacity frame rti
          woken).yields = woken) ∧
    (capacity ≤ queue.length →
      (freecanard_process_received_frame_from_ISR queue capacity frame rti
          woken).queue = queue ∧
      (freecanard_process_received_frame_from_ISR queue capacity frame rti
          woken).enqueued = false ∧
      (freecanard_process_received_frame_from_ISR queue capacity frame rti
          woken).yields = false) := by
  constructor
  · intro h
    simp [freecanard_process_received_frame_from_ISR, h]
  · intro h
    have h2 : ¬ queue.length < capacity := by omega
    simp [freecanard_process_received_frame_from_ISR, h2]

/-- C4 (witness): ingestion into an empty capacity-2 queue enqueues the
item with the supplied index 3 and yields (the enqueue woke a
higher-priority task); ingestion into a full capacity-1 queue leaves it
unchanged with no yield. -/
theorem C4_full_queue_silent_drop_witness :
    ((freecanard_process_received_frame_from_ISR [] 2
        { id := 1, data := [], data_len := 0 } 3 true).queue =
      [] ++ [{ frame_ := { id := 1, data := [], data_len := 0 },
               redundant_transport_index_ := 3 }] ∧
     (freecanard_process_received_frame_from_ISR [] 2
        { id := 1, data := [], data_len := 0 } 3 true).yields = true) ∧
    ((freecanard_process_received_frame_from_ISR
        [{ frame_ := { id := 9, data := [], data_len := 0 },
           redundant_transport_index_ := 0 }] 1
        { id := 1, data := [], data_len := 0 } 3 true).queue =
      [{ frame_ := { id := 9, data := [], data_len := 0 },
         redundant_transport_index_ := 0 }] ∧
     (freecanard_process_received_frame_from_ISR
        [{ frame_ := { id := 9, data := [], data_len := 0 },
           redundant_transport_index_ := 0 }] 1
        { id := 1, data := [], data_len := 0 } 3 true).enqueued = false ∧
     (freecanard_process_received_frame_from_ISR
        [{ frame_ := { id := 9, data := [], data_len := 0 },
           redundant_transport_index_ := 0 }] 1
        { id := 1, data := [], data_len := 0 } 3 true).yields = false) :=
  ⟨(C4_full_queue_silent_drop [] 2
      { id := 1, data := [], data_len := 0 } 3 true).1 (by decide),
   (C4_full_queue_silent_drop
      [{ frame_ := { id := 9, data := [], data_len := 0 },
         redundant_transport_index_ := 0 }] 1
      { id := 1, data := [], data_len := 0 } 3 true).2 (by decide)⟩

/-- C5: if a transmit call puts the frames `a ++ fk :: b` in the send
queue (N frames, `a` of length k−1) and the platform-send accepts every
frame of `a` but rejects `fk` (frame k), the drain stops at `fk`: exactly
`fk :: b` (N−k+1 frames) stays queued, frames 1..k−1 were sent, popped and
freed in order, and frame k was neither popped nor freed.  A subsequent
transmit call with no new frames, once the link accepts, sends `fk :: b` —
frame k onward in original order, never re-sending frames 1..k−1. -/
theorem C5_failed_send_leaves_queue_and_resumes
    (send : freecanard_frame_t → Bool → Int) (mtu : Nat)
    (a : List CanardFrame) (fk : CanardFrame) (b : List CanardFrame)
    (ha : ∀ f ∈ a, send (canard_to_freecanard_frame f)
        (decide (mtu = CANARD_MTU_CAN_FD)) = 0)
    (hk : send (canard_to_freecanard_frame fk)
        (decide (mtu = CANARD_MTU_CAN_FD)) ≠ 0) :
    (freecanard_transmit_transfer send mtu [] (a ++ fk :: b)).tx_queue =
      fk :: b ∧
    (freecanard_transmit_transfer send mtu [] (a ++ fk :: b)).tx_queue.length =
      (a ++ fk :: b).length - a.length ∧
    (freecanard_transmit_transfer send mtu [] (a ++ fk :: b)).sent = a ∧
    (freecanard_transmit_transfer send mtu [] (a ++ fk :: b)).freed = a ∧
    (freecanard_transmit_transfer send mtu [] (a ++ fk :: b)).pop_count =
      a.length ∧
    (freecanard_transmit_transfer send mtu [] (a ++ fk :: b)).free_count =
      a.length ∧
    ∀ send2 : freecanard_frame_t → Bool → Int,
      (∀ f ∈ fk :: b, send2 (canard_to_freecanard_frame f)
          (decide (mtu = CANARD_MTU_CAN_FD)) = 0) →
      (freecanard_transmit_transfer send2 mtu
          (freecanard_transmit_transfer send mtu []
            (a ++ fk :: b)).tx_queue []).sent = fk :: b ∧
      (freecanard_transmit_transfer send2 mtu
          (freecanard_transmit_transfer send mtu []
            (a ++ fk :: b)).tx_queue []).tx_queue = [] := by
  have h2 := drain_fail_head send (decide (mtu = CANARD_MTU_CAN_FD)) fk b hk
  have h1 := drain_append_success send (decide (mtu = CANARD_MTU_CAN_FD)) a
    (fk :: b) ha
  have hmain : freecanard_transmit_transfer send mtu [] (a ++ fk :: b) =
      { tx_queue := fk :: b, sent := a, freed := a,
        pop_count := a.length, free_count := a.length } := by
    unfold freecanard_transmit_transfer canardTxPush
    rw [List.nil_append, h1, h2]
    simp
  refine ⟨by rw [hmain], ?_, by rw [hmain], by rw [hmain], by rw [hmain],
    by rw [hmain], ?_⟩
  · rw [hmain]
    simp only [List.length_append, List.length_cons]
    omega
  · intro send2 hall
    have h3 := drain_append_success send2 (decide (mtu = CANARD_MTU_CAN_FD))
      (fk :: b) [] hall
    rw [List.append_nil] at h3
    have hres : freecanard_transmit_transfer send2 mtu
        (freecanard_transmit_transfer send mtu []
          (a ++ fk :: b)).tx_queue [] =
        freecanard_drain send2 (decide (mtu = CANARD_MTU_CAN_FD))
          (fk :: b) := by
      rw [hmain]
      unfold freecanard_transmit_transfer canardTxPush
      rw [List.append_nil]
    rw [hres, h3]
    simp [drain_nil]

/-- C5 (witness): three one-priority frames with ids 1, 2, 3; the link
rejects id 2.  The first transmit sends and frees only frame 1, leaving
frames 2 and 3 queued; a later transmit with no new payload and a free
link sends frames 2 and 3 in order and empties the queue. -/
theorem C5_failed_send_leaves_queue_and_resumes_witness :
    (∀ f ∈ [({ extended_can_id := 1, payload_size := 0, payload := [],
               timestamp_usec := 0 } : CanardFrame)],
      (fun (fr : freecanard_frame_t) (_ : Bool) =>
        if fr.id = 2 then (1 : Int) else 0)
        (canard_to_freecanard_frame f) (decide (8 = CANARD_MTU_CAN_FD)) = 0) ∧
    (fun (fr : freecanard_frame_t) (_ : Bool) =>
        if fr.id = 2 then (1 : Int) else 0)
      (canard_to_freecanard_frame
        { extended_can_id := 2, payload_size := 0, payload := [],
          timestamp_usec := 0 }) (decide (8 = CANARD_MTU_CAN_FD)) ≠ 0 ∧
    (freecanard_transmit_transfer
        (fun (fr : freecanard_frame_t) (_ : Bool) =>
          if fr.id = 2 then (1 : Int) else 0) 8 []
        ([{ extended_can_id := 1, payload_size := 0, payload := [],
            timestamp_usec := 0 }] ++
          { extended_can_id := 2, payload_size := 0, payload := [],
            timestamp_usec := 0 } ::
          [{ extended_can_id := 3, payload_size := 0, payload := [],
             timestamp_usec := 0 }])).tx_queue =
      ({ extended_can_id := 2, payload_size := 0, payload := [],
         timestamp_usec := 0 } : CanardFrame) ::
        [{ extended_can_id := 3, payload_size := 0, payload := [],
           timestamp_usec := 0 }] ∧
    (freecanard_transmit_transfer (fun _ _ => (0 : Int)) 8
        (freecanard_transmit_transfer
          (fun (fr : freecanard_frame_t) (_ : Bool) =>
            if fr.id = 2 then (1 : Int) else 0) 8 []
          ([{ extended_can_id := 1, payload_size := 0, payload := [],
              timestamp_usec := 0 }] ++
            { extended_can_id := 2, payload_size := 0, payload := [],
              timestamp_usec := 0 } ::
            [{ extended_can_id := 3, payload_size := 0, payload := [],
               timestamp_usec := 0 }])).tx_queue []).sent =
      ({ extended_can_id := 2, payload_size := 0, payload := [],
         timestamp_usec := 0 } : CanardFrame) ::
        [{ extended_can_id := 3, payload_size := 0, payload := [],
           timestamp_usec := 0 }] :=
  ⟨by decide, by decide,
   (C5_failed_send_leaves_queue_and_resumes
      (fun fr _ => if fr.id = 2 then (1 : Int) else 0) 8
      [{ extended_can_id := 1, payload_size := 0, payload := [],
         timestamp_usec := 0 }]
      { extended_can_id := 2, payload_size := 0, payload := [],
        timestamp_usec := 0 }
      [{ extended_can_id := 3, payload_size := 0, payload := [],
         timestamp_usec := 0 }] (by decide) (by decide)).1,
   ((C5_failed_send_leaves_queue_and_resumes
      (fun fr _ => if fr.id = 2 then (1 : Int) else 0) 8
      [{ extended_can_id := 1, payload_size := 0, payload := [],
         timestamp_usec := 0 }]
      { extended_can_id := 2, payload_size := 0, payload := [],
        timestamp_usec := 0 }
      [{ extended_can_id := 3, payload_size := 0, payload := [],
         timestamp_usec := 0 }] (by decide)
      (by decide)).2.2.2.2.2.2 (fun _ _ => (0 : Int)) (by decide)).1⟩

/-- C6: in every drain, each successful platform-send of the head frame is
followed by exactly one pop and exactly one free of that same frame before
the loop peeks the next frame (the paired-trace check holds for every send
oracle and queue); and when a transmit call drains the whole queue (the
link accepts every frame), the queue ends empty with one pop and one free
per frame, so an allocator whose outstanding allocations were exactly the
queued frames ends with allocate count equal to free count — no leak, no
double-free. -/
theorem C6_one_free_per_sent_frame
    (send : freecanard_frame_t → Bool → Int) (mtu : Nat)
    (q : List CanardFrame) :
    sendPopFreePaired (freecanard_drain_trace send
        (decide (mtu = CANARD_MTU_CAN_FD)) q) = true ∧
    ((∀ f ∈ q, send (canard_to_freecanard_frame f)
        (decide (mtu = CANARD_MTU_CAN_FD)) = 0) →
      freecanard_drain_trace send (decide (mtu = CANARD_MTU_CAN_FD)) q =
        (q.map fun f => [TxEvent.send_attempt f 0, TxEvent.pop f,
          TxEvent.free f]).flatten ∧
      (freecanard_transmit_transfer send mtu [] q).tx_queue = [] ∧
      (freecanard_transmit_transfer send mtu [] q).pop_count = q.length ∧
      (freecanard_transmit_transfer send mtu [] q).free_count = q.length ∧
      ∀ allocate_count free_count0 : Nat,
        allocate_count = free_count0 + q.length →
        allocate_count = free_count0 +
          (freecanard_transmit_transfer send mtu [] q).free_count) := by
  constructor
  · exact drain_trace_paired send (decide (mtu = CANARD_MTU_CAN_FD)) q
  · intro hall
    have ht := drain_trace_append_success send
      (decide (mtu = CANARD_MTU_CAN_FD)) q [] hall
    rw [List.append_nil] at ht
    have h1 := drain_append_success send
      (decide (mtu = CANARD_MTU_CAN_FD)) q [] hall
    rw [List.append_nil] at h1
    have hmain : freecanard_transmit_transfer send mtu [] q =
        freecanard_drain send (decide (mtu = CANARD_MTU_CAN_FD)) q := rfl
    refine ⟨by rw [ht]; simp [freecanard_drain_trace], ?_, ?_, ?_, ?_⟩
    · rw [hmain, h1, drain_nil]
    · rw [hmain, h1]; simp [drain_nil]
    · rw [hmain, h1]; simp [drain_nil]
    · intro allocate_count free_count0 hac
      rw [hmain, h1]
      simp [drain_nil]
      omega

/-- C6 (witness): a queue of two frames, a link that accepts everything:
the trace is send/pop/free for each frame in order, the queue ends empty
with two frees, and an allocator that had 5 allocations and 3 frees before
the drain (the 2 outstanding being the queued frames) balances at
5 = 3 + 2. -/
theorem C6_one_free_per_sent_frame_witness :
    sendPopFreePaired (freecanard_drain_trace (fun _ _ => (0 : Int))
        (decide (8 = CANARD_MTU_CAN_FD))
        [{ extended_can_id := 1, payload_size := 0, payload := [],
           timestamp_usec := 0 },
         { extended_can_id := 2, payload_size := 0, payload := [],
           timestamp_usec := 0 }]) = true ∧
    (freecanard_transmit_transfer (fun _ _ => (0 : Int)) 8 []
        [{ extended_can_id := 1, payload_size := 0, payload := [],
           timestamp_usec := 0 },
         { extended_can_id := 2, payload_size := 0, payload := [],
           timestamp_usec := 0 }]).tx_queue = [] ∧
    (5 : Nat) = 3 +
      (freecanard_transmit_transfer (fun _ _ => (0 : Int)) 8 []
        [{ extended_can_id := 1, payload_size := 0, payload := [],
           timestamp_usec := 0 },
         { extended_can_id := 2, payload_size := 0, payload := [],
           timestamp_usec := 0 }]).free_count :=
  ⟨(C6_one_free_per_sent_frame (fun _ _ => (0 : Int)) 8
      [{ extended_can_id := 1, payload_size := 0, payload := [],
         timestamp_usec := 0 },
       { extended_can_id := 2, payload_size := 0, payload := [],
         timestamp_usec := 0 }]).1,
   ((C6_one_free_per_sent_frame (fun _ _ => (0 : Int)) 8
      [{ extended_can_id := 1, payload_size := 0, payload := [],
         timestamp_usec := 0 },
       { extended_can_id := 2, payload_size := 0, payload := [],
         timestamp_usec := 0 }]).2 (by decide)).2.1,
   ((C6_one_free_per_sent_frame (fun _ _ => (0 : Int)) 8
      [{ extended_can_id := 1, payload_size := 0, payload := [],
         timestamp_usec := 0 },
       { extended_can_id := 2, payload_size := 0, payload := [],
         timestamp_usec := 0 }]).2 (by decide)).2.2.2.2 5 3 (by decide)⟩

/-- C7: every modelled public operation that touches the engine instance
or the allocator — subscribe, unsubscribe, the three transmit operations
(including their full drain loop, for every send oracle and queue), and
the Processing Task accept step (for every accept result and callback
state) — takes the mutex before its first engine/allocator access, keeps
it across every access, and gives it back on every exit path, ending with
the lock released. -/
theorem C7_every_operation_lock_guarded :
    lockOk 0 freecanard_subscribe_trace = true ∧
    lockOk 0 freecanard_unsubscribe_trace = true ∧
    (∀ (send : freecanard_frame_t → Bool → Int) (mtu : Nat)
        (txq frames : List CanardFrame),
      lockOk 0 (freecanard_transmit_subject_trace send mtu txq frames) =
        true) ∧
    (∀ (send : freecanard_frame_t → Bool → Int) (mtu : Nat)
        (txq frames : List CanardFrame),
      lockOk 0 (freecanard_transmit_request_trace send mtu txq frames) =
        true) ∧
    (∀ (send : freecanard_frame_t → Bool → Int) (mtu : Nat)
        (txq frames : List CanardFrame),
      lockOk 0 (freecanard_transmit_response_trace send mtu txq frames) =
        true) ∧
    (∀ (res : Int) (has_callback : Bool),
      lockOk 0 (freecanard_processing_step_lock_trace res has_callback) =
        true) := by
  have hdrain : ∀ (send : freecanard_frame_t → Bool → Int) (mtu : Nat)
      (txq frames : List CanardFrame),
      lockOk 0 (LockEvent.take ::
        freecanard_transmit_transfer_lock_trace send mtu txq frames ++
          [LockEvent.give]) = true := by
    intro send mtu txq frames
    simp only [freecanard_transmit_transfer_lock_trace, List.cons_append,
      lockOk]
    simp [lockOk_drain_lock_trace]
  refine ⟨rfl, rfl, hdrain, hdrain, hdrain, ?_⟩
  intro res has_callback
  by_cases h : res = 1 <;> cases has_callback <;>
    simp [freecanard_processing_step_lock_trace, freecanard_processing_step,
      ProcEvent.toLockEvents, h, lockOk]

/-- C8: per dequeued frame, if the accept step reports a complete transfer
(result 1) and a callback is registered, the iteration trace is exactly
take, accept, callback, free-payload, give — the callback runs while the
lock is held and the payload is freed exactly once, immediately after the
callback returns (with no registered callback the payload is still freed
exactly once); for any non-success result the trace is take, accept, give
— the frame is dropped, nothing else happens, no error is returned
anywhere, and the loop goes on to the next frame. -/
theorem C8_accept_outcome_handling (res : Int) (has_callback : Bool) :
    (res = 1 → has_callback = true →
      freecanard_processing_step res has_callback =
        [ProcEvent.take, ProcEvent.accept, ProcEvent.callback,
         ProcEvent.free_payload, ProcEvent.give] ∧
      (freecanard_processing_step res has_callback).count
        ProcEvent.free_payload = 1 ∧
      (freecanard_processing_step res has_callback).count
        ProcEvent.callback = 1) ∧
    (res = 1 → has_callback = false →
      freecanard_processing_step res has_callback =
        [ProcEvent.take, ProcEvent.accept, ProcEvent.free_payload,
         ProcEvent.give] ∧
      (freecanard_processing_step res has_callback).count
        ProcEvent.free_payload = 1) ∧
    (res ≠ 1 →
      freecanard_processing_step res has_callback =
        [ProcEvent.take, ProcEvent.accept, ProcEvent.give]) ∧
    (∀ rs : List Int,
      freecanard_processing_loop (res :: rs) has_callback =
        freecanard_processing_step res has_callback ++
          freecanard_processing_loop rs has_callback) := by
  refine ⟨?_, ?_, ?_, fun rs => rfl⟩
  · rintro rfl rfl
    refine ⟨by decide, by decide, by decide⟩
  · rintro rfl rfl
    refine ⟨by decide, by decide⟩
  · intro h
    simp [freecanard_processing_step, h]

/-- C8 (witness): a complete transfer with a registered callback produces
the take/accept/callback/free/give trace with exactly one free; a
non-success accept result (0, no transfer) produces take/accept/give. -/
theorem C8_accept_outcome_handling_witness :
    (freecanard_processing_step 1 true =
      [ProcEvent.take, ProcEvent.accept, ProcEvent.callback,
       ProcEvent.free_payload, ProcEvent.give] ∧
     (freecanard_processing_step 1 true).count ProcEvent.free_payload = 1 ∧
     (freecanard_processing_step 1 true).count ProcEvent.callback = 1) ∧
    freecanard_processing_step 0 true =
      [ProcEvent.take, ProcEvent.accept, ProcEvent.give] :=
  ⟨(C8_accept_outcome_handling 1 true).1 rfl rfl,
   (C8_accept_outcome_handling 0 true).2.2.1 (by decide)⟩

end Freecanard
